/-
Verification of the ibkr-trade-visualization repository.

Shallow embedding of the trade-record data model and of the operations in
src/src/options.py, src/src/transformations.py, src/src/api_utils.py,
src/src/config.py, src/src/streamlit_dashboard.py and src/chart_dash_2.py,
followed by theorems settling the specification claims.

Tables are lists of `TradeRow`; monetary amounts and strikes are `Rat`
(the Python code uses floats, but no claim depends on float rounding);
dates and timestamps are `Int`.
-/
import Mathlib

/-- One row of the working trade table (see spec section 3, TradeRecord). -/
structure TradeRow where
  description : String
  assetCategory : String
  underlyingSymbol : String
  putCall : String
  buySell : String
  strike : Rat
  expiry : Int
  tradeDate : Int
  dateTime : Int
  settleDateTarget : Int
  openCloseIndicator : String
  notes : String
  ibCommission : Rat
  cost : Rat
  fifoPnlRealized : Rat
  mtmPnl : Rat
  opendateTime : Int
  PnLRealized : Rat
  optionStrategy : Option String
deriving DecidableEq

/-- A Python value as it occurs in the comparison on options.py lines 56 and 66:
the elementwise comparison `group["buySell"] == BRACE "BUY" BRACE` compares each
buySell string with a Python set object. -/
inductive PyVal where
  | pyStr : String → PyVal
  | pySet : List String → PyVal

/-- Python equality (`==`) restricted to the values above: two strings compare by
content, two sets compare as sets, and a string never equals a set (Python returns
False for values of different, non-coercible types). -/
def pyEq : PyVal → PyVal → Bool
  | .pyStr a, .pyStr b => a == b
  | .pySet a, .pySet b => a.all (fun x => x ∈ b) && b.all (fun x => x ∈ a)
  | _, _ => false

/-- Python truthiness of `findtext` / `os.getenv` results: None and the empty
string are falsy, a nonempty string is truthy. -/
def pyTruthy : Option String → Bool
  | none => false
  | some s => !s.isEmpty

/-- `Series.nunique()`: the number of distinct values. -/
def nunique (l : List Int) : Nat := l.dedup.length

/-- `(group["putCall"] == "C").all()` -/
def allC (legs : List TradeRow) : Bool := legs.all (fun r => r.putCall == "C")

/-- `(group["putCall"] == "P").all()` -/
def allP (legs : List TradeRow) : Bool := legs.all (fun r => r.putCall == "P")

/-- `(group["buySell"] == "BUY").all()` -/
def allBuy (legs : List TradeRow) : Bool := legs.all (fun r => r.buySell == "BUY")

/-- `(group["buySell"] == "SELL").all()` -/
def allSell (legs : List TradeRow) : Bool := legs.all (fun r => r.buySell == "SELL")

/-- `set(group["putCall"]) == BRACE "P", "C" BRACE` (set of the column's values). -/
def pcSetPC (legs : List TradeRow) : Bool :=
  decide ((legs.map (fun r => r.putCall)).toFinset = ({"P", "C"} : Finset String))

/-- `set(group["buySell"]) == BRACE "BUY", "SELL" BRACE`. -/
def bsSetMixed (legs : List TradeRow) : Bool :=
  decide ((legs.map (fun r => r.buySell)).toFinset = ({"BUY", "SELL"} : Finset String))

/-- `if not a.empty and not b.empty: a.iloc[0], b.iloc[0]`: both first elements,
provided neither selection is empty; otherwise the branch is skipped. -/
def pairStrikes : Option Rat → Option Rat → Option (Rat × Rat)
  | some s, some b => some (s, b)
  | _, _ => none

/-- The repeated pattern of options.py two-leg branches: take the strike of the
first SELL row and the strike of the first BUY row (`.loc[...].iloc[0]`), provided
neither selection is empty; otherwise the branch is skipped. -/
def sellBuyStrikes (legs : List TradeRow) : Option (Rat × Rat) :=
  pairStrikes ((legs.filter (fun r => r.buySell == "SELL")).map (fun r => r.strike)).head?
    ((legs.filter (fun r => r.buySell == "BUY")).map (fun r => r.strike)).head?

/-- The straddle/strangle analogue: first call strike and first put strike. -/
def callPutStrikes (legs : List TradeRow) : Option (Rat × Rat) :=
  pairStrikes ((legs.filter (fun r => r.putCall == "C")).map (fun r => r.strike)).head?
    ((legs.filter (fun r => r.putCall == "P")).map (fun r => r.strike)).head?

/-- `(group["buySell"] == BRACE "BUY" BRACE).all()` — every buySell string compared
with the Python set containing "BUY" (options.py lines 56 and 66). -/
def buySellSetGuard (legs : List TradeRow) : Bool :=
  legs.all (fun r => pyEq (PyVal.pyStr r.buySell) (PyVal.pySet ["BUY"]))

/-- Sequencing of early `return` statements: the first block that returned wins. -/
def orRet (a b : Option String) : Option String :=
  match a with
  | some x => some x
  | none => b

/-- `group["expiry"].nunique() == 1` -/
def sameExpiry (legs : List TradeRow) : Bool :=
  nunique (legs.map (fun r => r.expiry)) == 1

/-- One-leg block of identify_option_strategy (options.py lines 12-28). -/
def identify1 (legs : List TradeRow) : String :=
  if allC legs && allBuy legs then "Long Call"
  else if allC legs && allSell legs then "Short Call"
  else if allP legs && allBuy legs then "Long Put"
  else if allP legs && allSell legs then "Short Put"
  else "Other"

/-- Two-leg same-expiry spread block (options.py lines 31-53). -/
def spreadSameBlock (legs : List TradeRow) : Option String :=
  if sameExpiry legs then
    orRet
      (if allC legs then
        match sellBuyStrikes legs with
        | some (s, b) => some (if s < b then "Bear Call Spread" else "Bull Call Spread")
        | none => none
      else none)
      (if allP legs then
        match sellBuyStrikes legs with
        | some (s, b) => some (if s < b then "Bear Put Spread" else "Bull Put Spread")
        | none => none
      else none)
  else none

/-- Straddle block (options.py lines 54-63). -/
def straddleBlock (legs : List TradeRow) : Option String :=
  if pcSetPC legs then
    if buySellSetGuard legs then
      match callPutStrikes legs with
      | some (c, p) => if c == p then some "Straddle" else none
      | none => none
    else none
  else none

/-- Strangle block together with its `else` arm, the calendar/diagonal block
(options.py lines 64-111): the calendar and diagonal checks run only when the
putCall set is not exactly P-and-C. -/
def strangleOrCalendarBlock (legs : List TradeRow) : Option String :=
  if pcSetPC legs then
    if buySellSetGuard legs then
      match callPutStrikes legs with
      | some (c, p) => if p < c then some "Strangle" else none
      | none => none
    else none
  else
    orRet
      (if allC legs then
        match sellBuyStrikes legs with
        | some (s, b) => if s == b then some "Calendar Call Spread" else none
        | none => none
      else none)
      (orRet
        (if allP legs then
          match sellBuyStrikes legs with
          | some (s, b) => if s == b then some "Calendar Put Spread" else none
          | none => none
        else none)
        (orRet
          (if allC legs then
            match sellBuyStrikes legs with
            | some (s, b) => if b < s then some "Diagonal Call Spread" else none
            | none => none
          else none)
          (if allP legs then
            match sellBuyStrikes legs with
            | some (s, b) => if s < b then some "Diagonal Put Spread" else none
            | none => none
          else none)))

/-- Two-leg block of identify_option_strategy (options.py lines 30-111). -/
def identify2 (legs : List TradeRow) : String :=
  (orRet (spreadSameBlock legs)
    (orRet (straddleBlock legs) (strangleOrCalendarBlock legs))).getD "Other"

/-- `sorted(group["strike"].tolist())` -/
def strikesSorted (legs : List TradeRow) : List Rat :=
  (legs.map (fun r => r.strike)).insertionSort (fun a b => a ≤ b)

/-- `strikes[0] < strikes[1] < strikes[2] < strikes[3]` on the four sorted strikes. -/
def ironCondorCond : List Rat → Bool
  | [a, b, c, d] => decide (a < b) && decide (b < c) && decide (c < d)
  | _ => false

/-- `strikes[1] == strikes[2]` on the four sorted strikes. -/
def midEqualCond : List Rat → Bool
  | [_, b, c, _] => b == c
  | _ => false

/-- `strikes[0] < strikes[1] == strikes[2] < strikes[3]` on the four sorted strikes. -/
def butterflyCond : List Rat → Bool
  | [a, b, c, d] => decide (a < b) && b == c && decide (c < d)
  | _ => false

/-- `strikes[0] == strikes[1] and strikes[2] == strikes[3]` on the four sorted strikes. -/
def boxCond : List Rat → Bool
  | [a, b, c, d] => a == b && c == d
  | _ => false

/-- Four-leg block of identify_option_strategy (options.py lines 113-144). -/
def identify4 (legs : List TradeRow) : String :=
  if sameExpiry legs then
    if pcSetPC legs && bsSetMixed legs && ironCondorCond (strikesSorted legs) then
      "Iron Condor"
    else if pcSetPC legs && bsSetMixed legs && midEqualCond (strikesSorted legs) then
      "Iron Butterfly"
    else if allP legs && bsSetMixed legs && butterflyCond (strikesSorted legs) then
      "Long Put Butterfly"
    else if allC legs && bsSetMixed legs && butterflyCond (strikesSorted legs) then
      "Long Call Butterfly"
    else if pcSetPC legs && bsSetMixed legs && boxCond (strikesSorted legs) then
      "Box Spread"
    else "Other"
  else "Other"

/-- identify_option_strategy (options.py lines 1-146): dispatch on the number of
legs in the group; any leg count other than 1, 2 or 4 yields "Other". -/
def identify_option_strategy (legs : List TradeRow) : String :=
  if legs.length = 1 then identify1 legs
  else if legs.length = 2 then identify2 legs
  else if legs.length = 4 then identify4 legs
  else "Other"

/-- The rows that the strategy classifier operates on (options.py lines 165-168):
opening legs of options and future options. -/
def isOpeningOption (r : TradeRow) : Bool :=
  r.openCloseIndicator == "O" && (r.assetCategory == "OPT" || r.assetCategory == "FOP")

/-- `df_options` of categorize_options_trades. -/
def optionLegs (df : List TradeRow) : List TradeRow := df.filter isOpeningOption

/-- `grouped = df_options.groupby("dateTime"); strategy = grouped.apply(identify_option_strategy)`:
the strategy attached to every opening option leg placed at instant `t`.  groupby
preserves the original order of the rows inside a group, which `filter` mirrors. -/
def strategyFor (df_options : List TradeRow) (t : Int) : String :=
  identify_option_strategy (df_options.filter (fun r => r.dateTime == t))

/-- categorize_options_trades (options.py lines 149-187): classify the opening
option legs grouped by dateTime, then left-merge the classified legs back onto the
full table on (description, opendateTime) = (description, dateTime_options).
A pandas left merge emits one output row per matching right row (duplicating the
left row when several right rows share the key) and a single row with a null
strategy when nothing matches. -/
def categorize_options_trades (df : List TradeRow) : List TradeRow :=
  let df_options := optionLegs df
  df.flatMap (fun r =>
    let ms := df_options.filter
      (fun o => o.description == r.description && o.dateTime == r.opendateTime)
    if ms.isEmpty then [{ r with optionStrategy := none }]
    else ms.map (fun o => { r with optionStrategy := some (strategyFor df_options o.dateTime) }))

/-- filter_and_group_data (transformations.py lines 4-57).  Defaults: a None
include-list means every value occurring in the table is included; a None
exclude-list means nothing is excluded.  Every row passing the filters gets
`PnLRealized = mtmPnl + ibCommission` (line 50), and the grouped result sums
PnLRealized per (tradeDate, settleDateTarget) with the keys in ascending order
as pandas groupby produces them. -/
def filter_and_group_data (df : List TradeRow)
    (assets_to_include symbols_to_include notes_to_exclude : Option (List String))
    (dates_to_exclude : Option (List Int)) :
    List TradeRow × List ((Int × Int) × Rat) :=
  let assets := assets_to_include.getD ((df.map (fun r => r.assetCategory)).dedup)
  let symbols := symbols_to_include.getD ((df.map (fun r => r.underlyingSymbol)).dedup)
  let notes := notes_to_exclude.getD []
  let dates := dates_to_exclude.getD []
  let filtered := df.filter (fun r =>
    assets.contains r.assetCategory && symbols.contains r.underlyingSymbol
      && !(notes.contains r.notes) && !(dates.contains r.tradeDate))
  let withPnl := filtered.map (fun r => { r with PnLRealized := r.mtmPnl + r.ibCommission })
  let keys := ((withPnl.map (fun r => (r.tradeDate, r.settleDateTarget))).dedup).insertionSort
    (fun a b => a.1 < b.1 ∨ (a.1 = b.1 ∧ a.2 ≤ b.2))
  let grouped := keys.map (fun k =>
    (k, ((withPnl.filter (fun r => r.tradeDate == k.1 && r.settleDateTarget == k.2)).map
      (fun r => r.PnLRealized)).sum))
  (withPnl, grouped)

/-- `filtered_df.groupby("opendateTime")["PnLRealized"].sum()`: one summed PnL per
distinct opendateTime (streamlit_dashboard.py line 182). -/
def trade_pnl_sums (filtered : List TradeRow) : List Rat :=
  ((filtered.map (fun r => r.opendateTime)).dedup).map (fun t =>
    ((filtered.filter (fun r => r.opendateTime == t)).map (fun r => r.PnLRealized)).sum)

/-- Win rate of src/src/streamlit_dashboard.py lines 181-185: the percentage of
opendateTime groups whose summed PnLRealized is strictly positive; 0 when the
filtered table is empty. -/
def win_rate_streamlit (filtered : List TradeRow) : Rat :=
  if filtered.isEmpty then 0
  else
    let sums := trade_pnl_sums filtered
    let wins := (sums.filter (fun s => decide (0 < s))).length
    let total_trades := sums.length
    if 0 < total_trades then (wins : Rat) / (total_trades : Rat) * 100 else 0

/-- Win rate of src/chart_dash_2.py lines 246-252: the percentage of individual
rows with strictly positive PnLRealized; 0 when the filtered table is empty. -/
def win_rate_dash2 (filtered : List TradeRow) : Rat :=
  if filtered.isEmpty then 0
  else
    let wins := (filtered.filter (fun r => decide ((0 : Rat) < r.PnLRealized))).length
    let total_trades := filtered.length
    if 0 < total_trades then (wins : Rat) / (total_trades : Rat) * 100 else 0

/-- numpy rounding to two decimal places (ties to even), as used by `.round(2)`. -/
def round2 (x : Rat) : Rat :=
  let y := x * 100
  let f := Int.floor y
  (if y - f < 1 / 2 then (f : Rat)
   else if 1 / 2 < y - f then (f : Rat) + 1
   else if f % 2 = 0 then (f : Rat) else (f : Rat) + 1) / 100

/-- `x.mean()` of a pandas series (guarded by nonemptiness at every use site). -/
def seriesMean (l : List Rat) : Rat := l.sum / l.length

/-- `x.max()` of a pandas series (the nil case is unreachable behind the guards). -/
def seriesMax : List Rat → Rat
  | [] => 0
  | a :: as => as.foldl max a

/-- `x.min()` of a pandas series (the nil case is unreachable behind the guards). -/
def seriesMin : List Rat → Rat
  | [] => 0
  | a :: as => as.foldl min a

/-- The per-trade aggregates of streamlit_dashboard.py lines 180-196 in order:
(win_rate, wins, total_trades, avg_loser, avg_winner, max_winner, max_loser,
avg_per_trade).  On an empty filtered table every component is zero. -/
structure DashStats where
  win_rate : Rat
  wins : Nat
  total_trades : Nat
  avg_loser : Rat
  avg_winner : Rat
  max_winner : Rat
  max_loser : Rat
  avg_per_trade : Rat
deriving DecidableEq

/-- streamlit_dashboard.py lines 180-196. -/
def dashboard_stats (filtered : List TradeRow) : DashStats :=
  if filtered.isEmpty then
    { win_rate := 0, wins := 0, total_trades := 0, avg_loser := 0, avg_winner := 0,
      max_winner := 0, max_loser := 0, avg_per_trade := 0 }
  else
    let sums := trade_pnl_sums filtered
    let wins := (sums.filter (fun s => decide (0 < s))).length
    let total_trades := sums.length
    let win_rate := if 0 < total_trades then (wins : Rat) / (total_trades : Rat) * 100 else 0
    let losers := sums.filter (fun s => decide (s < 0))
    let winners := sums.filter (fun s => decide (0 < s))
    { win_rate := win_rate, wins := wins, total_trades := total_trades,
      avg_loser := if losers.isEmpty then 0 else seriesMean losers,
      avg_winner := if winners.isEmpty then 0 else seriesMean winners,
      max_winner := if winners.isEmpty then 0 else seriesMax winners,
      max_loser := if losers.isEmpty then 0 else seriesMin losers,
      avg_per_trade := if sums.isEmpty then 0 else seriesMean sums }

/-- The PCR block of streamlit_dashboard.py lines 198-205, returning
(sum_cost, sum_realized, pcr); all three are zero when no OPT/FOP rows remain,
and pcr is zero when the premium denominator is zero. -/
def dashboard_pcr (filtered : List TradeRow) : Rat × Rat × Rat :=
  let pcr_df := filtered.filter (fun r => r.assetCategory == "FOP" || r.assetCategory == "OPT")
  if pcr_df.isEmpty then (0, 0, 0)
  else
    let sum_cost := round2 |((pcr_df.map (fun r => r.cost)).sum)|
    let sum_realized := round2 ((pcr_df.map (fun r => r.PnLRealized)).sum)
    let pcr := if sum_cost ≠ 0 then round2 (sum_realized / sum_cost * 100) else 0
    (sum_cost, sum_realized, pcr)

/-- get_filtered_pcr (transformations.py lines 164-178), applied to the already
period-filtered table: keep the sold options (cost < 0), sum cost and realized
PnL, and divide unless the premium denominator is zero.  Returns
(sum_cost, sum_realized, premium_capture_rate). -/
def get_filtered_pcr (filtered_df : List TradeRow) : Rat × Rat × Rat :=
  let df_pcr := filtered_df.filter (fun r => decide (r.cost < 0))
  let sum_cost := round2 |((df_pcr.map (fun r => r.cost)).sum)|
  let sum_realized := round2 ((df_pcr.map (fun r => r.PnLRealized)).sum)
  let premium_capture_rate :=
    if sum_cost ≠ 0 then round2 (sum_realized / sum_cost * 100) else 0
  (sum_cost, sum_realized, premium_capture_rate)

/-- The parsed XML root of a GetStatement response: the optional ErrorCode and
ErrorMessage texts, and the trade payload that pd.read_xml would extract. -/
structure FlexRoot where
  errorCode : Option String
  errorMessage : Option String
  payload : String
deriving DecidableEq

/-- One upstream response: either the XML fails to parse (api_utils.py line 83,
in which case the raw text is handed to pd.read_xml and returned as-is), or it
parses to a root element. -/
inductive FlexResponse where
  | parseFail : String → FlexResponse
  | parsed : FlexRoot → FlexResponse
deriving DecidableEq

/-- The observable outcome of get_statement: a returned table, a raised
exception with its message, or Python's implicit None return should the loop
ever fall through (it cannot for the actual attempt range). -/
inductive GetStatementResult where
  | ok : String → GetStatementResult
  | raises : String → GetStatementResult
  | retNone : GetStatementResult
deriving DecidableEq

/-- `max_retries = 5` (api_utils.py line 51). -/
def max_retries : Nat := 5

/-- `retry_delay = 5` seconds (api_utils.py line 52). -/
def retry_delay : Nat := 5

/-- A response whose parsed ErrorCode is "1019" (statement generation in progress). -/
def is1019 : FlexResponse → Bool
  | .parsed root => root.errorCode == some "1019"
  | .parseFail _ => false

/-- The body of the retry loop of get_statement (api_utils.py lines 54-86) over
the remaining attempt indices, also recording the sleep durations performed.
`responses` gives the upstream response of each attempt index. -/
def runAttempts (responses : Nat → FlexResponse) : List Nat → GetStatementResult × List Nat
  | [] => (.retNone, [])
  | attempt :: rest =>
    match responses attempt with
    | .parseFail payload => (.ok payload, [])
    | .parsed root =>
      if root.errorCode == some "1019" then
        if attempt < max_retries - 1 then
          ((runAttempts responses rest).1, retry_delay :: (runAttempts responses rest).2)
        else
          (.raises ("FlexQuery Error 1019: " ++ root.errorMessage.getD
            "Statement generation in progress. Maximum retries exceeded."), [])
      else if pyTruthy root.errorCode then
        (.raises ("FlexQuery Error " ++ root.errorCode.getD "" ++ ": "
          ++ root.errorMessage.getD "Unknown error"), [])
      else (.ok root.payload, [])

/-- get_statement (api_utils.py lines 33-86): `for attempt in range(max_retries)`. -/
def get_statement (responses : Nat → FlexResponse) : GetStatementResult × List Nat :=
  runAttempts responses (List.range max_retries)

/-- How a single non-1019 response is handled by the loop body: a parse failure
returns the raw payload, a truthy error code raises immediately with that code
and message, and an absent or empty error code returns the payload. -/
def handleResp : FlexResponse → GetStatementResult
  | .parseFail payload => .ok payload
  | .parsed root =>
    if pyTruthy root.errorCode then
      .raises ("FlexQuery Error " ++ root.errorCode.getD "" ++ ": "
        ++ root.errorMessage.getD "Unknown error")
    else .ok root.payload

/-- The exception message raised when the retry budget is exhausted on a 1019
response (api_utils.py lines 70-75). -/
def exhaustMsg : FlexResponse → String
  | .parsed root => "FlexQuery Error 1019: " ++ root.errorMessage.getD
      "Statement generation in progress. Maximum retries exceeded."
  | .parseFail _ => ""

/-- The configuration returned by load_config, with HEADERS already parsed from
its JSON string into a value of the parser's result type `J`. -/
structure LoadedConfig (J : Type) where
  TOKEN : String
  QUERY_ID : String
  FLEX_VERSION : String
  HEADERS : J

/-- load_config (config.py lines 8-38).  The environment is the function
`getenv` (os.getenv after load_dotenv) and `json_loads` is the JSON parser,
returning none exactly when json.loads would raise JSONDecodeError. -/
def load_config {J : Type} (getenv : String → Option String)
    (json_loads : String → Option J) : Except String (LoadedConfig J) :=
  if !pyTruthy (getenv "TOKEN") then .error "Please set the TOKEN environment variable."
  else if !pyTruthy (getenv "QUERY_ID") then
    .error "Please set the QUERY_ID environment variable."
  else if !pyTruthy (getenv "FLEX_VERSION") then
    .error "Please set the FLEX_VERSION environment variable."
  else if !pyTruthy (getenv "HEADERS") then
    .error "Please set the HEADERS environment variable."
  else
    match json_loads ((getenv "HEADERS").getD "") with
    | none => .error "HEADERS must be a valid JSON string."
    | some j =>
      .ok ⟨(getenv "TOKEN").getD "", (getenv "QUERY_ID").getD "",
        (getenv "FLEX_VERSION").getD "", j⟩

/-- A base row for building the concrete tables used in the witnesses and
counterexamples below. -/
def row0 : TradeRow :=
  { description := "", assetCategory := "", underlyingSymbol := "", putCall := "",
    buySell := "", strike := 0, expiry := 0, tradeDate := 0, dateTime := 0,
    settleDateTarget := 0, openCloseIndicator := "", notes := "", ibCommission := 0,
    cost := 0, fifoPnlRealized := 0, mtmPnl := 0, opendateTime := 0, PnLRealized := 0,
    optionStrategy := none }

/-- Four option legs opened in the same instant forming an iron butterfly:
putCall P,P,C,C, mixed BUY/SELL, same expiry, strikes 95/100/100/105. -/
def ibLegs : List TradeRow :=
  [ { row0 with
        assetCategory := "OPT", putCall := "P", buySell := "BUY",
        strike := 95, expiry := 10, dateTime := 7, openCloseIndicator := "O" },
    { row0 with
        assetCategory := "OPT", putCall := "P", buySell := "SELL",
        strike := 100, expiry := 10, dateTime := 7, openCloseIndicator := "O" },
    { row0 with
        assetCategory := "OPT", putCall := "C", buySell := "SELL",
        strike := 100, expiry := 10, dateTime := 7, openCloseIndicator := "O" },
    { row0 with
        assetCategory := "OPT", putCall := "C", buySell := "BUY",
        strike := 105, expiry := 10, dateTime := 7, openCloseIndicator := "O" } ]

/-- The same four legs with one middle strike perturbed from 100 to 101, so the
sorted strikes 95/100/101/105 are strictly ascending. -/
def icLegs : List TradeRow :=
  [ { row0 with
        assetCategory := "OPT", putCall := "P", buySell := "BUY",
        strike := 95, expiry := 10, dateTime := 7, openCloseIndicator := "O" },
    { row0 with
        assetCategory := "OPT", putCall := "P", buySell := "SELL",
        strike := 100, expiry := 10, dateTime := 7, openCloseIndicator := "O" },
    { row0 with
        assetCategory := "OPT", putCall := "C", buySell := "SELL",
        strike := 101, expiry := 10, dateTime := 7, openCloseIndicator := "O" },
    { row0 with
        assetCategory := "OPT", putCall := "C", buySell := "BUY",
        strike := 105, expiry := 10, dateTime := 7, openCloseIndicator := "O" } ]

/-- Claim C3: a four-leg group sharing one dateTime and one expiry, with putCall
set P-and-C, mixed BUY/SELL and sorted strikes 95/100/100/105 (equal middle
strikes) classifies as "Iron Butterfly"; if the four sorted strikes are instead
strictly ascending and distinct it classifies as "Iron Condor". -/
theorem iron_butterfly_vs_condor (legs : List TradeRow)
    (hlen : legs.length = 4)
    (_hdt : (legs.map (fun r => r.dateTime)).dedup.length = 1)
    (hexp : sameExpiry legs = true)
    (hpc : pcSetPC legs = true)
    (hbs : bsSetMixed legs = true) :
    (strikesSorted legs = [95, 100, 100, 105] →
      identify_option_strategy legs = "Iron Butterfly")
    ∧ (∀ a b c d : Rat, strikesSorted legs = [a, b, c, d] → a < b → b < c → c < d →
      identify_option_strategy legs = "Iron Condor") := by
  constructor
  · intro hs
    have h1 : ironCondorCond (strikesSorted legs) = false := by rw [hs]; decide
    have h2 : midEqualCond (strikesSorted legs) = true := by rw [hs]; decide
    simp [identify_option_strategy, hlen, identify4, hexp, hpc, hbs, h1, h2]
  · intro a b c d hs hab hbc hcd
    have h1 : ironCondorCond (strikesSorted legs) = true := by
      rw [hs]; simp [ironCondorCond, hab, hbc, hcd]
    simp [identify_option_strategy, hlen, identify4, hexp, hpc, hbs, h1]

/-- Witness for C3 at the two concrete leg groups. -/
theorem iron_butterfly_vs_condor_witness :
    identify_option_strategy ibLegs = "Iron Butterfly"
      ∧ identify_option_strategy icLegs = "Iron Condor" :=
  ⟨(iron_butterfly_vs_condor ibLegs (by decide) (by decide) (by decide) (by decide)
      (by decide)).1 (by decide),
   (iron_butterfly_vs_condor icLegs (by decide) (by decide) (by decide) (by decide)
      (by decide)).2 95 100 101 105 (by decide) (by decide) (by decide) (by decide)⟩

/-- The two-leg same-expiry spread block can only produce the four vertical
spread names. -/
lemma spreadSameBlock_mem (legs : List TradeRow) (s : String)
    (h : spreadSameBlock legs = some s) :
    s = "Bear Call Spread" ∨ s = "Bull Call Spread"
      ∨ s = "Bear Put Spread" ∨ s = "Bull Put Spread" := by
  unfold spreadSameBlock orRet at h
  rcases hsb : sellBuyStrikes legs with _ | ⟨sk, bk⟩ <;> rw [hsb] at h <;>
    split_ifs at h <;> simp_all <;> split_ifs at h <;> simp_all

/-- With a mixed put/call group the strangle arm runs, and its set-comparison
guard being false kills it; the calendar/diagonal arm is not reached. -/
lemma strangleBlock_none (legs : List TradeRow)
    (hpc : pcSetPC legs = true) (hg : buySellSetGuard legs = false) :
    strangleOrCalendarBlock legs = none := by
  unfold strangleOrCalendarBlock
  rw [hpc, hg]
  simp

/-- With the set-comparison guard false the straddle block yields nothing. -/
lemma straddleBlock_none (legs : List TradeRow)
    (hpc : pcSetPC legs = true) (hg : buySellSetGuard legs = false) :
    straddleBlock legs = none := by
  unfold straddleBlock
  rw [hpc, hg]
  simp

/-- Claim C2: for a two-leg group with one put and one call, the guard comparing
the buySell column against the Python set containing "BUY" never holds, so
identify_option_strategy never returns "Straddle" or "Strangle"; such groups
fall through to the remaining two-leg branches. -/
theorem straddle_strangle_unreachable (legs : List TradeRow)
    (hlen : legs.length = 2) (hpc : pcSetPC legs = true) :
    buySellSetGuard legs = false
    ∧ identify_option_strategy legs ≠ "Straddle"
    ∧ identify_option_strategy legs ≠ "Strangle" := by
  obtain ⟨a, b, rfl⟩ := List.length_eq_two.mp hlen
  have hg : buySellSetGuard [a, b] = false := by
    simp [buySellSetGuard, pyEq]
  have hid : identify_option_strategy [a, b] = identify2 [a, b] := by
    simp [identify_option_strategy]
  refine ⟨hg, ?_, ?_⟩ <;>
    · rw [hid]
      unfold identify2
      rw [straddleBlock_none _ hpc hg, strangleBlock_none _ hpc hg]
      rcases hsp : spreadSameBlock [a, b] with _ | s
      · simp [orRet]
      · rcases spreadSameBlock_mem _ _ hsp with rfl | rfl | rfl | rfl <;> simp [orRet]

/-- A two-leg mixed put/call group shaped exactly like a long straddle. -/
def straddleShapedLegs : List TradeRow :=
  [ { row0 with
        assetCategory := "OPT", putCall := "P", buySell := "BUY",
        strike := 100, expiry := 10, dateTime := 3, openCloseIndicator := "O" },
    { row0 with
        assetCategory := "OPT", putCall := "C", buySell := "BUY",
        strike := 100, expiry := 10, dateTime := 3, openCloseIndicator := "O" } ]

/-- Witness for C2 at a concrete straddle-shaped group. -/
theorem straddle_strangle_unreachable_witness :
    pcSetPC straddleShapedLegs = true
      ∧ (buySellSetGuard straddleShapedLegs = false
        ∧ identify_option_strategy straddleShapedLegs ≠ "Straddle"
        ∧ identify_option_strategy straddleShapedLegs ≠ "Strangle") :=
  ⟨by decide, straddle_strangle_unreachable straddleShapedLegs (by decide) (by decide)⟩

/-- The settlement-aware realized-PnL rule exactly as claim C1 states it: use
mark-to-market plus commission only for a same-day-expiry row with zero fifo PnL
whose settlement target lies in the window from today to today plus three days;
otherwise use fifoPnlRealized directly. -/
def settlementAwareRule (today : Int) (r : TradeRow) : Rat :=
  if r.tradeDate = r.expiry ∧ r.fifoPnlRealized = 0
      ∧ today ≤ r.settleDateTarget ∧ r.settleDateTarget ≤ today + 3 then
    r.mtmPnl + r.ibCommission
  else r.fifoPnlRealized

/-- Claim C1 as stated: every row of the filtered table produced by
filter_and_group_data carries the settlement-aware PnLRealized. -/
def claimC1Pred : Prop :=
  ∀ (today : Int) (df : List TradeRow)
    (assets symbols notes : Option (List String)) (dates : Option (List Int)),
    ∀ r ∈ (filter_and_group_data df assets symbols notes dates).1,
      r.PnLRealized = settlementAwareRule today r

/-- A row whose settlement has long passed and whose fifo PnL is 50: the claim
demands PnLRealized 50, the code produces mtmPnl + ibCommission = 9. -/
def c1Row : TradeRow :=
  { row0 with
      assetCategory := "STK", underlyingSymbol := "A", tradeDate := 10, expiry := 20,
      settleDateTarget := 50, fifoPnlRealized := 50, mtmPnl := 10, ibCommission := -1 }

/-- The row c1Row as it appears in the output of filter_and_group_data. -/
def c1Out : TradeRow := { c1Row with PnLRealized := c1Row.mtmPnl + c1Row.ibCommission }

/-- c1Out is the sole row of the filtered table built from c1Row. -/
lemma c1Out_mem : c1Out ∈ (filter_and_group_data [c1Row] none none none none).1 :=
  List.mem_singleton.mpr rfl

/-- Counterexample to claim C1 as stated: with today = 100 the settlement of
c1Row has passed and fifoPnlRealized is 50, yet filter_and_group_data emits
PnLRealized = 10 + (-1) = 9 = mtmPnl + ibCommission. -/
theorem settlement_rule_counterexample : ¬ claimC1Pred := fun h =>
  absurd (h 100 [c1Row] none none none none c1Out c1Out_mem)
    (by norm_num [c1Out, c1Row, row0, settlementAwareRule])

/-- Claim C1 amended: filter_and_group_data (transformations.py line 50) assigns
PnLRealized = mtmPnl + ibCommission to every row passing its filters,
unconditionally — fifoPnlRealized, expiry and the settlement window are never
consulted.  (The settlement-aware variant the spec describes belongs to the
`transform` pipeline entry point, which the repository imports in main.py but
does not ship.) -/
theorem filter_and_group_pnl_unconditional (df : List TradeRow)
    (assets symbols notes : Option (List String)) (dates : Option (List Int)) :
    ∀ r ∈ (filter_and_group_data df assets symbols notes dates).1,
      r.PnLRealized = r.mtmPnl + r.ibCommission := by
  intro r hr
  simp only [filter_and_group_data, List.mem_map] at hr
  obtain ⟨a, _, rfl⟩ := hr
  rfl

/-- Witness for the amended C1 at the concrete one-row table. -/
theorem filter_and_group_pnl_unconditional_witness :
    c1Out ∈ (filter_and_group_data [c1Row] none none none none).1
      ∧ c1Out.PnLRealized = c1Out.mtmPnl + c1Out.ibCommission :=
  ⟨c1Out_mem,
   filter_and_group_pnl_unconditional [c1Row] none none none none c1Out c1Out_mem⟩

/-- A position row: one fill with a given open instant and realized PnL. -/
def c5Row (t : Int) (v : Rat) : TradeRow :=
  { row0 with opendateTime := t, PnLRealized := v }

/-- Eleven rows in ten opendateTime groups; group 1 holds two fills (+5 and -3)
whose sum +2 is net-positive, groups 2-6 are single positive fills, groups 7-10
single negative fills: 6 of the 10 groups are net-positive. -/
def exC5 : List TradeRow :=
  [c5Row 1 5, c5Row 1 (-3), c5Row 2 1, c5Row 3 1, c5Row 4 1, c5Row 5 1, c5Row 6 1,
   c5Row 7 (-1), c5Row 8 (-1), c5Row 9 (-1), c5Row 10 (-1)]

/-- Claim C5 as stated: on every filtered table with ten distinct opendateTime
groups of which six have net-positive summed PnLRealized, the computed win rate
(both the streamlit computation and the chart_dash_2 computation the claim
covers) equals 60. -/
def claimC5Pred : Prop :=
  ∀ filtered : List TradeRow,
    ((filtered.map (fun r => r.opendateTime)).dedup).length = 10 →
    ((trade_pnl_sums filtered).filter (fun s => decide (0 < s))).length = 6 →
    win_rate_streamlit filtered = 60 ∧ win_rate_dash2 filtered = 60

/-- Counterexample to claim C5 as stated: exC5 has ten opendateTime groups with
six net-positive sums, yet chart_dash_2 counts positive rows, giving
6 / 11 * 100 ≠ 60. -/
theorem win_rate_dash2_counterexample : ¬ claimC5Pred := fun h =>
  absurd
    (h exC5 (by decide)
      (by
        have h1 : (exC5.map (fun r => r.opendateTime)).dedup
            = [1, 2, 3, 4, 5, 6, 7, 8, 9, 10] := by decide
        rw [trade_pnl_sums, h1]
        norm_num [exC5, c5Row, row0])).2
    (by norm_num [win_rate_dash2, exC5, c5Row, row0])

/-- Claim C5 amended: the streamlit dashboard computes the win rate as the
fraction of opendateTime groups with strictly positive summed PnLRealized, so
ten groups with six net-positive sums give 60.0; chart_dash_2 instead computes
the fraction of individual rows with positive PnLRealized, which differs as soon
as some group has more than one row. -/
theorem win_rate_streamlit_grouped (filtered : List TradeRow)
    (h10 : ((filtered.map (fun r => r.opendateTime)).dedup).length = 10)
    (h6 : ((trade_pnl_sums filtered).filter (fun s => decide (0 < s))).length = 6) :
    win_rate_streamlit filtered = 60 := by
  have hlen : (trade_pnl_sums filtered).length = 10 := by
    rw [trade_pnl_sums, List.length_map, h10]
  have hemp : filtered.isEmpty = false := by
    cases hf : filtered with
    | nil => rw [hf] at h10; simp at h10
    | cons a as => rfl
  simp only [win_rate_streamlit, hemp, h6, hlen]
  norm_num

/-- Ten single-fill positions, six of them positive. -/
def exC5W : List TradeRow :=
  [c5Row 1 1, c5Row 2 1, c5Row 3 1, c5Row 4 1, c5Row 5 1, c5Row 6 1,
   c5Row 7 (-1), c5Row 8 (-1), c5Row 9 (-1), c5Row 10 (-1)]

/-- Witness for the amended C5 at the concrete ten-group table. -/
theorem win_rate_streamlit_grouped_witness : win_rate_streamlit exC5W = 60 :=
  win_rate_streamlit_grouped exC5W (by decide)
    (by
      have h1 : (exC5W.map (fun r => r.opendateTime)).dedup
          = [1, 2, 3, 4, 5, 6, 7, 8, 9, 10] := by decide
      rw [trade_pnl_sums, h1]
      norm_num [exC5W, c5Row, row0])

/-- A single opening option row whose premium (cost) is zero, so the PCR
denominator vanishes on a nonempty filtered table. -/
def zeroCostOptRow : TradeRow := { row0 with assetCategory := "OPT" }

/-- Claim C8: a filter selection yielding zero rows is not an error — the win
rate, the per-trade aggregates, the premium sums and the premium capture rate
all evaluate to zero on the empty filtered table, and the premium capture rate
also degrades to zero whenever the premium denominator is zero. -/
theorem empty_filter_aggregates :
    dashboard_stats [] = ⟨0, 0, 0, 0, 0, 0, 0, 0⟩
    ∧ win_rate_dash2 [] = 0
    ∧ dashboard_pcr [] = (0, 0, 0)
    ∧ get_filtered_pcr [] = (0, 0, 0)
    ∧ (∀ filtered : List TradeRow,
        (dashboard_pcr filtered).1 = 0 → (dashboard_pcr filtered).2.2 = 0)
    ∧ (∀ filtered_df : List TradeRow,
        (get_filtered_pcr filtered_df).1 = 0 → (get_filtered_pcr filtered_df).2.2 = 0) := by
  refine ⟨rfl, rfl, rfl, ?_, ?_, ?_⟩
  · norm_num [get_filtered_pcr, round2]
  · intro filtered h
    simp only [dashboard_pcr] at h ⊢
    split_ifs at h ⊢ with hcase hne
    · rfl
    · exact absurd (by simpa using h) hne
    · simp
  · intro filtered_df h
    simp only [get_filtered_pcr] at h ⊢
    split_ifs at h ⊢ with hne
    · exact absurd (by simpa using h) hne
    · simp

/-- Witness for C8 at the concrete zero-premium one-row table. -/
theorem empty_filter_aggregates_witness :
    (dashboard_pcr [zeroCostOptRow]).1 = 0 ∧ (dashboard_pcr [zeroCostOptRow]).2.2 = 0
      ∧ (get_filtered_pcr [zeroCostOptRow]).1 = 0
      ∧ (get_filtered_pcr [zeroCostOptRow]).2.2 = 0 :=
  ⟨by norm_num [dashboard_pcr, round2, zeroCostOptRow, row0],
   empty_filter_aggregates.2.2.2.2.1 [zeroCostOptRow]
     (by norm_num [dashboard_pcr, round2, zeroCostOptRow, row0]),
   by norm_num [get_filtered_pcr, round2, zeroCostOptRow, row0],
   empty_filter_aggregates.2.2.2.2.2 [zeroCostOptRow]
     (by norm_num [get_filtered_pcr, round2, zeroCostOptRow, row0])⟩

/-- Claim C9: load_config fails exactly when one of TOKEN, QUERY_ID,
FLEX_VERSION, HEADERS is missing or empty or HEADERS does not parse as JSON;
otherwise it returns the configuration holding all four values with HEADERS
parsed. -/
theorem load_config_validates {J : Type} (getenv : String → Option String)
    (json_loads : String → Option J) :
    ((∃ e, load_config getenv json_loads = .error e)
      ↔ (pyTruthy (getenv "TOKEN") = false ∨ pyTruthy (getenv "QUERY_ID") = false
        ∨ pyTruthy (getenv "FLEX_VERSION") = false ∨ pyTruthy (getenv "HEADERS") = false
        ∨ json_loads ((getenv "HEADERS").getD "") = none))
    ∧ (∀ c : LoadedConfig J, load_config getenv json_loads = .ok c →
        c.TOKEN = (getenv "TOKEN").getD "" ∧ c.QUERY_ID = (getenv "QUERY_ID").getD ""
        ∧ c.FLEX_VERSION = (getenv "FLEX_VERSION").getD ""
        ∧ json_loads ((getenv "HEADERS").getD "") = some c.HEADERS) := by
  unfold load_config
  split_ifs with h1 h2 h3 h4
  · simp_all
  · simp_all
  · simp_all
  · simp_all
  · rcases hj : json_loads ((getenv "HEADERS").getD "") with _ | j <;> simp_all

/-- An environment holding all four connection parameters. -/
def exEnv : String → Option String := fun k =>
  if k == "TOKEN" then some "t"
  else if k == "QUERY_ID" then some "q"
  else if k == "FLEX_VERSION" then some "3"
  else if k == "HEADERS" then some "hjson"
  else none

/-- Witness for C9 with a fully populated environment and an accepting parser. -/
theorem load_config_validates_witness :
    load_config exEnv (fun s => some s) = .ok ⟨"t", "q", "3", "hjson"⟩
    ∧ ((⟨"t", "q", "3", "hjson"⟩ : LoadedConfig String).TOKEN = (exEnv "TOKEN").getD ""
      ∧ (⟨"t", "q", "3", "hjson"⟩ : LoadedConfig String).QUERY_ID = (exEnv "QUERY_ID").getD ""
      ∧ (⟨"t", "q", "3", "hjson"⟩ : LoadedConfig String).FLEX_VERSION
          = (exEnv "FLEX_VERSION").getD ""
      ∧ (fun s => some s) ((exEnv "HEADERS").getD "")
          = some (⟨"t", "q", "3", "hjson"⟩ : LoadedConfig String).HEADERS) :=
  ⟨rfl, (load_config_validates exEnv (fun s => some s)).2 ⟨"t", "q", "3", "hjson"⟩ rfl⟩

/-- A 1019 response on a non-final attempt: sleep retry_delay and continue. -/
lemma runAttempts_1019_step (responses : Nat → FlexResponse) (a : Nat) (rest : List Nat)
    (h : is1019 (responses a) = true) (ha : a < max_retries - 1) :
    runAttempts responses (a :: rest)
      = ((runAttempts responses rest).1, retry_delay :: (runAttempts responses rest).2) := by
  cases hr : responses a with
  | parseFail p => rw [hr] at h; simp [is1019] at h
  | parsed root =>
    rw [hr] at h
    simp only [is1019] at h
    simp [runAttempts, hr, h, ha]

/-- A non-1019 response exits the loop at once via handleResp, with no sleep. -/
lemma runAttempts_non1019_step (responses : Nat → FlexResponse) (a : Nat) (rest : List Nat)
    (h : is1019 (responses a) = false) :
    runAttempts responses (a :: rest) = (handleResp (responses a), []) := by
  cases hr : responses a with
  | parseFail p => simp [runAttempts, hr, handleResp]
  | parsed root =>
    rw [hr] at h
    simp only [is1019] at h
    simp only [runAttempts, hr, h, handleResp, Bool.false_eq_true, if_false]
    split_ifs <;> rfl

/-- A 1019 response on the final attempt raises the exhaustion message. -/
lemma runAttempts_last_1019 (responses : Nat → FlexResponse)
    (h : is1019 (responses 4) = true) :
    runAttempts responses [4] = (.raises (exhaustMsg (responses 4)), []) := by
  cases hr : responses 4 with
  | parseFail p => rw [hr] at h; simp [is1019] at h
  | parsed root =>
    rw [hr] at h
    simp only [is1019] at h
    simp [runAttempts, hr, h, exhaustMsg, max_retries]

/-- Claim C7: get_statement retries only on upstream error code 1019, sleeping a
fixed retry_delay of 5 seconds between attempts, for at most max_retries = 5
attempts.  The first non-1019 response at attempt k exits immediately — raising
the upstream code and message when the code is truthy, with no further retry —
after exactly k sleeps; and when all five attempts report 1019 the call raises
the upstream 1019 message after exhausting the budget with four sleeps. -/
theorem get_statement_retry_policy (responses : Nat → FlexResponse) :
    (∀ k, k < max_retries → (∀ j, j < k → is1019 (responses j) = true) →
      is1019 (responses k) = false →
      get_statement responses = (handleResp (responses k), List.replicate k retry_delay))
    ∧ ((∀ j, j < max_retries → is1019 (responses j) = true) →
      get_statement responses
        = (.raises (exhaustMsg (responses (max_retries - 1))),
          List.replicate (max_retries - 1) retry_delay)) := by
  have hrange : List.range max_retries = [0, 1, 2, 3, 4] := rfl
  constructor
  · intro k hk hprev hk0
    have hk5 : k < 5 := hk
    unfold get_statement
    rw [hrange]
    interval_cases k
    · rw [runAttempts_non1019_step _ _ _ hk0]
      rfl
    · rw [runAttempts_1019_step _ _ _ (hprev 0 (by decide)) (by decide),
        runAttempts_non1019_step _ _ _ hk0]
      rfl
    · rw [runAttempts_1019_step _ _ _ (hprev 0 (by decide)) (by decide),
        runAttempts_1019_step _ _ _ (hprev 1 (by decide)) (by decide),
        runAttempts_non1019_step _ _ _ hk0]
      rfl
    · rw [runAttempts_1019_step _ _ _ (hprev 0 (by decide)) (by decide),
        runAttempts_1019_step _ _ _ (hprev 1 (by decide)) (by decide),
        runAttempts_1019_step _ _ _ (hprev 2 (by decide)) (by decide),
        runAttempts_non1019_step _ _ _ hk0]
      rfl
    · rw [runAttempts_1019_step _ _ _ (hprev 0 (by decide)) (by decide),
        runAttempts_1019_step _ _ _ (hprev 1 (by decide)) (by decide),
        runAttempts_1019_step _ _ _ (hprev 2 (by decide)) (by decide),
        runAttempts_1019_step _ _ _ (hprev 3 (by decide)) (by decide),
        runAttempts_non1019_step _ _ _ hk0]
      rfl
  · intro hall
    unfold get_statement
    rw [hrange]
    rw [runAttempts_1019_step _ _ _ (hall 0 (by decide)) (by decide),
      runAttempts_1019_step _ _ _ (hall 1 (by decide)) (by decide),
      runAttempts_1019_step _ _ _ (hall 2 (by decide)) (by decide),
      runAttempts_1019_step _ _ _ (hall 3 (by decide)) (by decide),
      runAttempts_last_1019 _ (hall 4 (by decide))]
    rfl

/-- An upstream that always reports statement generation in progress. -/
def always1019 : Nat → FlexResponse :=
  fun _ => .parsed ⟨some "1019", some "busy", ""⟩

/-- Witness for C7: five straight 1019 responses exhaust the budget after four
5-second sleeps and raise the upstream message. -/
theorem get_statement_retry_policy_witness :
    get_statement always1019
      = (.raises (exhaustMsg (always1019 (max_retries - 1))),
        List.replicate (max_retries - 1) retry_delay) :=
  (get_statement_retry_policy always1019).2 (fun _j _hj => rfl)

/-- A row whose asset category is an option or future option. -/
def isOptionAsset (r : TradeRow) : Bool :=
  r.assetCategory == "OPT" || r.assetCategory == "FOP"

/-- Claim C4 as stated: in the output of categorize_options_trades, every row
that is a non-option row, or that matches no classified opening option leg on
(description, opendateTime), has a null optionStrategy. -/
def claimC4Pred : Prop :=
  ∀ df : List TradeRow, ∀ r ∈ categorize_options_trades df,
    (isOptionAsset r = false
      ∨ ∀ o ∈ optionLegs df, ¬(o.description = r.description ∧ o.dateTime = r.opendateTime)) →
    r.optionStrategy = none

/-- A stock row sharing description "X" and open instant 100 with an option leg. -/
def c4Stk : TradeRow :=
  { row0 with
      description := "X", assetCategory := "STK", openCloseIndicator := "C",
      opendateTime := 100 }

/-- The classified opening option leg with description "X" at instant 100. -/
def c4Opt : TradeRow :=
  { row0 with
      description := "X", assetCategory := "OPT", openCloseIndicator := "O",
      putCall := "C", buySell := "BUY", dateTime := 100, opendateTime := 100 }

/-- A table pairing the stock row with the option leg it collides with. -/
def df4 : List TradeRow := [c4Stk, c4Opt]

/-- Counterexample to claim C4 as stated: the merge matches on the join keys
only, so the non-option stock row of df4, sharing (description, opendateTime)
with the classified leg, receives optionStrategy "Long Call" instead of null. -/
theorem strategy_null_counterexample : ¬ claimC4Pred := fun h =>
  absurd
    (h df4 { c4Stk with optionStrategy := some "Long Call" } (by decide)
      (Or.inl (by decide)))
    (by decide)

/-- Claim C4 amended: categorize_options_trades classifies only opening
OPT/FOP legs grouped by dateTime, and after the left merge on
(description, opendateTime) an output row has a null optionStrategy exactly
when no classified opening option leg matches its (description, opendateTime)
key — a non-option row that shares both keys with a classified leg also
receives that leg's strategy. -/
theorem categorize_strategy_null_iff (df : List TradeRow) :
    ∀ r ∈ categorize_options_trades df,
      (r.optionStrategy = none
        ↔ ∀ o ∈ optionLegs df,
            ¬(o.description = r.description ∧ o.dateTime = r.opendateTime)) := by
  intro r hr
  unfold categorize_options_trades at hr
  rw [List.mem_flatMap] at hr
  obtain ⟨a, ha, hfa⟩ := hr
  dsimp only at hfa
  by_cases hms : ((optionLegs df).filter
      (fun o => o.description == a.description && o.dateTime == a.opendateTime)).isEmpty
  · rw [if_pos hms, List.mem_singleton] at hfa
    subst hfa
    constructor
    · intro _ o ho hmatch
      have hfil := List.filter_eq_nil_iff.mp (List.isEmpty_iff.mp hms)
      exact hfil o ho (by simp [hmatch.1, hmatch.2])
    · intro _
      rfl
  · rw [if_neg hms, List.mem_map] at hfa
    obtain ⟨o, ho, rfl⟩ := hfa
    have hpred := List.mem_filter.mp ho
    constructor
    · intro hnone
      exact absurd hnone (by simp)
    · intro hall
      exfalso
      have hp := hpred.2
      simp only [Bool.and_eq_true, beq_iff_eq] at hp
      exact hall o hpred.1 ⟨hp.1, hp.2⟩

/-- Witness for the amended C4: the option leg of df4 matches itself, so both
output rows carry "Long Call"; the iff is exercised at the stock output row. -/
theorem categorize_strategy_null_iff_witness :
    ({ c4Stk with optionStrategy := some "Long Call" } ∈ categorize_options_trades df4)
    ∧ (({ c4Stk with optionStrategy := some "Long Call" } : TradeRow).optionStrategy = none
        ↔ ∀ o ∈ optionLegs df4,
            ¬(o.description = ({ c4Stk with optionStrategy := some "Long Call" } : TradeRow).description
              ∧ o.dateTime = ({ c4Stk with optionStrategy := some "Long Call" } : TradeRow).opendateTime)) :=
  ⟨by decide,
   categorize_strategy_null_iff df4 { c4Stk with optionStrategy := some "Long Call" } (by decide)⟩

/-- Forgetting the optionStrategy column of a row. -/
def stripStrategy (r : TradeRow) : TradeRow := { r with optionStrategy := none }

/-- No two rows share the (description, dateTime) merge key. -/
def keysUnique : List TradeRow → Bool
  | [] => true
  | a :: as =>
    as.all (fun b => !(b.description == a.description && b.dateTime == a.dateTime))
      && keysUnique as

/-- Claim C10 as stated: the left merge of categorize_options_trades never
changes the row count, each input row appearing exactly once. -/
def claimC10Pred : Prop :=
  ∀ df : List TradeRow, (categorize_options_trades df).length = df.length

/-- An opening option leg that occurs twice at the same instant with the same
description, so the merge key (description, dateTime) is duplicated. -/
def dupLeg : TradeRow :=
  { row0 with
      description := "X", assetCategory := "OPT", openCloseIndicator := "O",
      putCall := "C", buySell := "BUY", dateTime := 100, opendateTime := 100 }

/-- Two identical classified legs sharing the merge key. -/
def dupDf : List TradeRow := [dupLeg, dupLeg]

/-- Counterexample to claim C10 as stated: with two classified legs sharing
(description, dateTime), the pandas left merge emits one row per match, turning
the two input rows into four output rows. -/
theorem merge_row_count_counterexample : ¬ claimC10Pred := fun h =>
  absurd (h dupDf) (by decide)

/-- Under unique merge keys, a key filter selects at most one leg. -/
lemma keysUnique_filter_le_one (l : List TradeRow) (h : keysUnique l = true)
    (d : String) (t : Int) :
    (l.filter (fun o => o.description == d && o.dateTime == t)).length ≤ 1 := by
  induction l with
  | nil => simp
  | cons a as ih =>
    simp only [keysUnique, Bool.and_eq_true, List.all_eq_true] at h
    obtain ⟨h1, h2⟩ := h
    by_cases hp : (a.description == d && a.dateTime == t) = true
    · have hnil : as.filter (fun o => o.description == d && o.dateTime == t) = [] := by
        apply List.filter_eq_nil_iff.mpr
        intro b hb hbp
        have hba := h1 b hb
        simp only [Bool.and_eq_true, beq_iff_eq] at hp hbp
        simp only [Bool.not_eq_true', Bool.and_eq_false_iff, beq_eq_false_iff_ne] at hba
        rcases hba with hba | hba
        · exact hba (hbp.1.trans hp.1.symm)
        · exact hba (hbp.2.trans hp.2.symm)
      simp [List.filter_cons, hp, hnil]
    · simp only [List.filter_cons, hp, Bool.false_eq_true, if_false]
      exact ih h2

/-- A flatMap whose pieces each carry exactly one row (up to the strategy
column) is a map. -/
lemma flatMap_map_single (df : List TradeRow) (f : TradeRow → List TradeRow)
    (hf : ∀ a ∈ df, (f a).map stripStrategy = [stripStrategy a]) :
    (df.flatMap f).map stripStrategy = df.map stripStrategy := by
  induction df with
  | nil => rfl
  | cons a as ih =>
    rw [List.flatMap_cons, List.map_append, hf a (List.mem_cons_self a as),
      ih (fun b hb => hf b (List.mem_cons_of_mem a hb)), List.map_cons]
    rfl

/-- Claim C10 amended: when no two classified opening option legs share the
(description, dateTime) merge key, categorize_options_trades keeps every input
row exactly once with all original column values unchanged, only filling the
optionStrategy column; with duplicated keys the pandas left merge instead
duplicates each matching row once per matching leg. -/
theorem categorize_preserves_rows (df : List TradeRow)
    (h : keysUnique (optionLegs df) = true) :
    (categorize_options_trades df).map stripStrategy = df.map stripStrategy := by
  unfold categorize_options_trades
  apply flatMap_map_single
  intro a _
  dsimp only
  by_cases hms : ((optionLegs df).filter
      (fun o => o.description == a.description && o.dateTime == a.opendateTime)).isEmpty
  · rw [if_pos hms]
    rfl
  · rw [if_neg hms]
    have hle := keysUnique_filter_le_one (optionLegs df) h a.description a.opendateTime
    rcases hfil : (optionLegs df).filter
        (fun o => o.description == a.description && o.dateTime == a.opendateTime)
      with _ | ⟨o, rest⟩
    · rw [hfil] at hms
      simp at hms
    · rw [hfil] at hle
      cases rest with
      | nil =>
        rw [hfil]
        rfl
      | cons b bs =>
        rw [List.length_cons, List.length_cons] at hle
        omega

/-- Witness for the amended C10 at the two-row table with unique merge keys. -/
theorem categorize_preserves_rows_witness :
    keysUnique (optionLegs df4) = true
    ∧ (categorize_options_trades df4).map stripStrategy = df4.map stripStrategy :=
  ⟨by decide, categorize_preserves_rows df4 (by decide)⟩

/-- `.all()` over a column is invariant under row permutation. -/
lemma perm_all {l₁ l₂ : List TradeRow} (h : l₁.Perm l₂) (p : TradeRow → Bool) :
    l₁.all p = l₂.all p := by
  rw [Bool.eq_iff_iff]
  simp only [List.all_eq_true]
  constructor <;> intro hh x hx
  · exact hh x (h.mem_iff.mpr hx)
  · exact hh x (h.mem_iff.mp hx)

/-- `.nunique()` is invariant under row permutation. -/
lemma perm_nunique {l₁ l₂ : List TradeRow} (h : l₁.Perm l₂) (f : TradeRow → Int) :
    nunique (l₁.map f) = nunique (l₂.map f) := ((h.map f).dedup).length_eq

/-- Expiry uniformity is invariant under row permutation. -/
lemma perm_sameExpiry {l₁ l₂ : List TradeRow} (h : l₁.Perm l₂) :
    sameExpiry l₁ = sameExpiry l₂ := by
  unfold sameExpiry
  rw [perm_nunique h]

/-- The set of values of a string column is invariant under row permutation. -/
lemma perm_toFinsetStr {l₁ l₂ : List TradeRow} (h : l₁.Perm l₂) (f : TradeRow → String) :
    (l₁.map f).toFinset = (l₂.map f).toFinset := by
  ext a
  simp [List.mem_toFinset, (h.map f).mem_iff]

/-- The putCall set test is invariant under row permutation. -/
lemma perm_pcSetPC {l₁ l₂ : List TradeRow} (h : l₁.Perm l₂) : pcSetPC l₁ = pcSetPC l₂ := by
  unfold pcSetPC
  rw [perm_toFinsetStr h]

/-- The buySell set test is invariant under row permutation. -/
lemma perm_bsSetMixed {l₁ l₂ : List TradeRow} (h : l₁.Perm l₂) :
    bsSetMixed l₁ = bsSetMixed l₂ := by
  unfold bsSetMixed
  rw [perm_toFinsetStr h]

/-- All-calls is invariant under row permutation. -/
lemma perm_allC {l₁ l₂ : List TradeRow} (h : l₁.Perm l₂) : allC l₁ = allC l₂ :=
  perm_all h _

/-- All-puts is invariant under row permutation. -/
lemma perm_allP {l₁ l₂ : List TradeRow} (h : l₁.Perm l₂) : allP l₁ = allP l₂ :=
  perm_all h _

/-- All-buys is invariant under row permutation. -/
lemma perm_allBuy {l₁ l₂ : List TradeRow} (h : l₁.Perm l₂) : allBuy l₁ = allBuy l₂ :=
  perm_all h _

/-- All-sells is invariant under row permutation. -/
lemma perm_allSell {l₁ l₂ : List TradeRow} (h : l₁.Perm l₂) : allSell l₁ = allSell l₂ :=
  perm_all h _

/-- The string-vs-set straddle guard is invariant under row permutation. -/
lemma perm_buySellSetGuard {l₁ l₂ : List TradeRow} (h : l₁.Perm l₂) :
    buySellSetGuard l₁ = buySellSetGuard l₂ :=
  perm_all h _

/-- Sorting the strikes erases the row order. -/
lemma perm_strikesSorted {l₁ l₂ : List TradeRow} (h : l₁.Perm l₂) :
    strikesSorted l₁ = strikesSorted l₂ :=
  List.eq_of_perm_of_sorted
    ((List.perm_insertionSort _ _).trans
      ((h.map (fun r => r.strike)).trans (List.perm_insertionSort _ _).symm))
    (List.sorted_insertionSort _ _) (List.sorted_insertionSort _ _)

/-- Two filters with mutually exclusive predicates select disjoint rows. -/
lemma length_filter_disjoint_le (p q : TradeRow → Bool)
    (hdisj : ∀ x, p x = true → q x = false) (l : List TradeRow) :
    (l.filter p).length + (l.filter q).length ≤ l.length := by
  induction l with
  | nil => simp
  | cons a as ih =>
    by_cases hp : p a = true
    · have hq := hdisj a hp
      simp only [List.filter_cons, hp, hq, if_true, Bool.false_eq_true, if_false,
        List.length_cons]
      omega
    · rw [Bool.not_eq_true] at hp
      cases hq : q a <;>
        simp only [List.filter_cons, hp, hq, Bool.false_eq_true, if_false, if_true,
          List.length_cons] <;>
        omega

/-- In a two-row group in which two disjoint filters are both nonempty, each
filter selects exactly one row, so its result is permutation-invariant. -/
lemma perm_filter_of_two (p q : TradeRow → Bool)
    (hdisj : ∀ x, p x = true → q x = false) {l₁ l₂ : List TradeRow}
    (h : l₁.Perm l₂) (hlen : l₁.length = 2)
    (hp : l₁.filter p ≠ []) (hq : l₁.filter q ≠ []) :
    l₁.filter p = l₂.filter p := by
  have h1 : 0 < (l₁.filter p).length := List.length_pos.mpr hp
  have h2 : 0 < (l₁.filter q).length := List.length_pos.mpr hq
  have h3 := length_filter_disjoint_le p q hdisj l₁
  rw [hlen] at h3
  have hone : (l₁.filter p).length = 1 := by omega
  obtain ⟨x, hx⟩ := List.length_eq_one.mp hone
  rw [hx]
  have hperm := h.filter p
  rw [hx] at hperm
  exact List.singleton_perm.mp hperm

/-- An empty second selection skips the branch. -/
lemma pairStrikes_none_right (a : Option Rat) : pairStrikes a none = none := by
  cases a <;> rfl

/-- An empty first selection skips the branch. -/
lemma pairStrikes_none_left (b : Option Rat) : pairStrikes none b = none := by
  cases b <;> rfl

/-- A filter empty on one side of a permutation is empty on the other. -/
lemma perm_filter_nil {l₁ l₂ : List TradeRow} (h : l₁.Perm l₂) (p : TradeRow → Bool)
    (hp : l₁.filter p = []) : l₂.filter p = [] := by
  have hf := h.filter p
  rw [hp] at hf
  exact List.perm_nil.mp hf.symm

/-- The first-SELL/first-BUY strike pair of a two-row group is invariant under
row permutation: the `.iloc[0]` accesses are only reached when each selection
holds exactly one row. -/
lemma perm_sellBuyStrikes {l₁ l₂ : List TradeRow} (h : l₁.Perm l₂) (hlen : l₁.length = 2) :
    sellBuyStrikes l₁ = sellBuyStrikes l₂ := by
  unfold sellBuyStrikes
  by_cases hp : l₁.filter (fun r => r.buySell == "SELL") = []
  · rw [hp, perm_filter_nil h _ hp]
    simp [pairStrikes_none_left]
  · by_cases hq : l₁.filter (fun r => r.buySell == "BUY") = []
    · rw [hq, perm_filter_nil h _ hq]
      simp [pairStrikes_none_right]
    · have hd1 : ∀ x : TradeRow, (x.buySell == "SELL") = true → (x.buySell == "BUY") = false := by
        intro x hx
        rw [beq_iff_eq] at hx
        rw [hx]
        rfl
      have hd2 : ∀ x : TradeRow, (x.buySell == "BUY") = true → (x.buySell == "SELL") = false := by
        intro x hx
        rw [beq_iff_eq] at hx
        rw [hx]
        rfl
      rw [perm_filter_of_two _ _ hd1 h hlen hp hq,
        perm_filter_of_two _ _ hd2 h hlen hq hp]

/-- The first-call/first-put strike pair of a two-row group is invariant under
row permutation. -/
lemma perm_callPutStrikes {l₁ l₂ : List TradeRow} (h : l₁.Perm l₂) (hlen : l₁.length = 2) :
    callPutStrikes l₁ = callPutStrikes l₂ := by
  unfold callPutStrikes
  by_cases hp : l₁.filter (fun r => r.putCall == "C") = []
  · rw [hp, perm_filter_nil h _ hp]
    simp [pairStrikes_none_left]
  · by_cases hq : l₁.filter (fun r => r.putCall == "P") = []
    · rw [hq, perm_filter_nil h _ hq]
      simp [pairStrikes_none_right]
    · have hd1 : ∀ x : TradeRow, (x.putCall == "C") = true → (x.putCall == "P") = false := by
        intro x hx
        rw [beq_iff_eq] at hx
        rw [hx]
        rfl
      have hd2 : ∀ x : TradeRow, (x.putCall == "P") = true → (x.putCall == "C") = false := by
        intro x hx
        rw [beq_iff_eq] at hx
        rw [hx]
        rfl
      rw [perm_filter_of_two _ _ hd1 h hlen hp hq,
        perm_filter_of_two _ _ hd2 h hlen hq hp]

/-- The same-expiry spread block is invariant under row permutation. -/
lemma perm_spreadSameBlock {l₁ l₂ : List TradeRow} (h : l₁.Perm l₂) (hlen : l₁.length = 2) :
    spreadSameBlock l₁ = spreadSameBlock l₂ := by
  unfold spreadSameBlock
  rw [perm_sameExpiry h, perm_allC h, perm_allP h, perm_sellBuyStrikes h hlen]

/-- The straddle block is invariant under row permutation. -/
lemma perm_straddleBlock {l₁ l₂ : List TradeRow} (h : l₁.Perm l₂) (hlen : l₁.length = 2) :
    straddleBlock l₁ = straddleBlock l₂ := by
  unfold straddleBlock
  rw [perm_pcSetPC h, perm_buySellSetGuard h, perm_callPutStrikes h hlen]

/-- The strangle and calendar/diagonal blocks are invariant under row permutation. -/
lemma perm_strangleOrCalendarBlock {l₁ l₂ : List TradeRow} (h : l₁.Perm l₂)
    (hlen : l₁.length = 2) :
    strangleOrCalendarBlock l₁ = strangleOrCalendarBlock l₂ := by
  unfold strangleOrCalendarBlock
  rw [perm_pcSetPC h, perm_buySellSetGuard h, perm_callPutStrikes h hlen,
    perm_allC h, perm_allP h, perm_sellBuyStrikes h hlen]

/-- The one-leg block is invariant under row permutation. -/
lemma perm_identify1 {l₁ l₂ : List TradeRow} (h : l₁.Perm l₂) :
    identify1 l₁ = identify1 l₂ := by
  unfold identify1
  rw [perm_allC h, perm_allP h, perm_allBuy h, perm_allSell h]

/-- The two-leg block is invariant under row permutation. -/
lemma perm_identify2 {l₁ l₂ : List TradeRow} (h : l₁.Perm l₂) (hlen : l₁.length = 2) :
    identify2 l₁ = identify2 l₂ := by
  unfold identify2
  rw [perm_spreadSameBlock h hlen, perm_straddleBlock h hlen,
    perm_strangleOrCalendarBlock h hlen]

/-- The four-leg block is invariant under row permutation. -/
lemma perm_identify4 {l₁ l₂ : List TradeRow} (h : l₁.Perm l₂) :
    identify4 l₁ = identify4 l₂ := by
  unfold identify4
  rw [perm_sameExpiry h, perm_pcSetPC h, perm_bsSetMixed h, perm_strikesSorted h,
    perm_allC h, perm_allP h]

/-- Claim C6: identify_option_strategy is invariant to the order of the rows in
its input group — for every group of legs and every permutation of its rows the
returned strategy string is the same. -/
theorem identify_option_strategy_perm_invariant (l₁ l₂ : List TradeRow) (h : l₁.Perm l₂) :
    identify_option_strategy l₁ = identify_option_strategy l₂ := by
  unfold identify_option_strategy
  rw [h.length_eq]
  split_ifs with h1 h2 h4
  · exact perm_identify1 h
  · exact perm_identify2 h (by rw [h.length_eq]; exact h2)
  · exact perm_identify4 h
  · rfl

/-- The two legs of a bull call spread, used to exercise the theorem on a
concrete swap. -/
def spreadLegSell : TradeRow :=
  { row0 with
      assetCategory := "OPT", putCall := "C", buySell := "SELL",
      strike := 100, expiry := 10, dateTime := 9, openCloseIndicator := "O" }

/-- The bought leg of the same spread. -/
def spreadLegBuy : TradeRow :=
  { row0 with
      assetCategory := "OPT", putCall := "C", buySell := "BUY",
      strike := 95, expiry := 10, dateTime := 9, openCloseIndicator := "O" }

/-- Witness for C6: swapping the two legs of a concrete spread group leaves the
identified strategy unchanged. -/
theorem identify_option_strategy_perm_invariant_witness :
    identify_option_strategy [spreadLegSell, spreadLegBuy]
      = identify_option_strategy [spreadLegBuy, spreadLegSell]
    ∧ identify_option_strategy [spreadLegSell, spreadLegBuy] = "Bull Call Spread" :=
  ⟨identify_option_strategy_perm_invariant _ _ (List.Perm.swap spreadLegBuy spreadLegSell []),
   by decide⟩
